import Mathlib

/-!
Shallow embedding of `zaplib/ci/src/cmd.rs` (the Zaplib CI tool).

The program orchestrates an in-browser test suite:
* `server_thread` generates a self-signed certificate, binds an HTTPS static
  file server on port 1122, and sends its `ServerHandle` back over an mpsc
  channel once `bind_openssl` has succeeded.
* `cmd` spawns the server thread, blocks on `rx.recv()` for the handle, runs
  `run_tests`, and then awaits `server_handle.stop(true)`.
* `run_tests` either fans out one task per BrowserStack configuration and
  `join_all`s them (farm mode), or drives a single local browser.
* `test_suite_all_tests_3x` navigates to the served test page, injects a
  polling script, classifies the resolved value, and (in farm mode) reports
  the status back to BrowserStack.

External collaborators (the WebDriver client, the HTTP server, the channel)
are modelled by a `SessionEnv` record that fixes the result of each fallible
external call of one session, and by a trace of `Event`s recording the
side effects in program order.  Rust panics (`unwrap`, `panic!`) are modelled
as an `Option String` verdict: `some msg` means the run panicked with `msg`
before reaching the steps that follow, `none` means it ran to completion.
Concurrent interleaving of the per-session futures is serialized in list
order; within a session the event order is exactly the program order, which
is what the ordering claims are about.
-/

namespace ZaplibCI

/-- JSON values as far as the runner inspects them: `execute_async_script`
returns a `serde_json::Value` and the code only asks whether it is a string
(`.value().as_str()`, cmd.rs line 213).  Arrays and objects are left opaque
because the code never looks inside them. -/
inductive JsonValue where
  | jnull
  | jbool (b : Bool)
  | jnum (n : Int)
  | jstr (s : String)
  | jarr
  | jobj
  deriving DecidableEq, Repr

/-- Embedding of `serde_json::Value::as_str`: `some` exactly on strings. -/
def JsonValue.asStr : JsonValue → Option String
  | .jstr s => some s
  | _ => none

/-- Result of a fallible external call (`Result<T, E>` with the error rendered
to its display string, which is all the code ever does with an error). -/
inductive Res (α : Type) where
  | ok (a : α)
  | err (e : String)
  deriving DecidableEq, Repr

/-- Observable side effects of one run, in program order. -/
inductive Event where
  | logInfo (msg : String)
  | logError (msg : String)
  | openSession (browser : String)
  | navigate (url : String)
  | execAsyncScript
  | farmReport (status : String) (reason : String)
  | driverQuit
  | serverBind (port : Nat)
  | handlePublish
  | shutdownRequest
  | shutdownConfirmed
  deriving DecidableEq, Repr

/-- Outcome of each fallible external call made on behalf of one session:
`WebDriver::new`, `driver.get`, `driver.execute_async_script` (with the
resolved JSON value on success), `driver.execute_script` for the
BrowserStack status report, and `driver.quit`. -/
structure SessionEnv where
  connect : Res Unit
  navigateRes : Res Unit
  script : Res JsonValue
  farmReportRes : Res Unit
  quit : Res Unit
  deriving DecidableEq, Repr

/-- The fallback used at cmd.rs line 213 when the script resolution value is
not a string (`unwrap_or`). -/
def noStringReturned : String := "--zaplib_ci: no string was returned--"

/-- The test-suite entry page URL (cmd.rs line 200). -/
def testSuiteUrl (local_port : Nat) : String :=
  "https://bs-local.com:" ++ toString local_port ++ "/zaplib/web/test_suite"

/-- The log line at cmd.rs lines 202-203 (the Rust backslash-newline
continuation collapses into a single space-joined message). -/
def consoleOutputNote (browser_name : String) : String :=
  "[" ++ browser_name ++
    "] For console output see the browser/Browserstack directly. See https://github.com/stevepryde/thirtyfour/issues/87"

/-- Embedding of `test_suite_all_tests_3x` (cmd.rs lines 192-242).
Returns the `Result<(), Box<dyn Error>>` together with the events it emits,
in program order.  Every failure inside this function is propagated with `?`
(it never panics):
* `driver.get` failure propagates after the navigation was attempted;
* `execute_async_script` failure propagates after the script was injected;
* the resolved value is read with `.as_str().unwrap_or(noStringReturned)`;
* on `"SUCCESS"`: log passed, and in farm mode attempt the status report
  (`status:"passed", reason:""`), whose failure propagates with `?`;
* on any other string `s`: in farm mode log the failure first, then attempt
  the status report (`status:"failed", reason:""`), whose failure propagates
  with `?`, and otherwise return `Err("Tests failed (see above)")`; in local
  mode return `Err("Tests failed: " ++ s)` directly. -/
def test_suite_all_tests_3x (browser_name : String) (env : SessionEnv)
    (local_port : Nat) (is_browserstack : Bool) : Res Unit × List Event :=
  match env.navigateRes with
  | .err e =>
    (.err e,
     [.logInfo ("[" ++ browser_name ++ "] Connected to WebDriver..."),
      .navigate (testSuiteUrl local_port)])
  | .ok _ =>
    match env.script with
    | .err e =>
      (.err e,
       [.logInfo ("[" ++ browser_name ++ "] Connected to WebDriver..."),
        .navigate (testSuiteUrl local_port),
        .logInfo ("[" ++ browser_name ++ "] Running tests..."),
        .logInfo (consoleOutputNote browser_name),
        .execAsyncScript])
    | .ok v =>
      let s := v.asStr.getD noStringReturned
      if s = "SUCCESS" then
        if is_browserstack then
          (match env.farmReportRes with
           | .err e => .err e
           | .ok _ => .ok (),
           [.logInfo ("[" ++ browser_name ++ "] Connected to WebDriver..."),
            .navigate (testSuiteUrl local_port),
            .logInfo ("[" ++ browser_name ++ "] Running tests..."),
            .logInfo (consoleOutputNote browser_name),
            .execAsyncScript,
            .logInfo ("[" ++ browser_name ++ "] Tests passed!"),
            .farmReport "passed" ""])
        else
          (.ok (),
           [.logInfo ("[" ++ browser_name ++ "] Connected to WebDriver..."),
            .navigate (testSuiteUrl local_port),
            .logInfo ("[" ++ browser_name ++ "] Running tests..."),
            .logInfo (consoleOutputNote browser_name),
            .execAsyncScript,
            .logInfo ("[" ++ browser_name ++ "] Tests passed!")])
      else
        if is_browserstack then
          (match env.farmReportRes with
           | .err e => .err e
           | .ok _ => .err "Tests failed (see above)",
           [.logInfo ("[" ++ browser_name ++ "] Connected to WebDriver..."),
            .navigate (testSuiteUrl local_port),
            .logInfo ("[" ++ browser_name ++ "] Running tests..."),
            .logInfo (consoleOutputNote browser_name),
            .execAsyncScript,
            .logError ("[" ++ browser_name ++ "] Tests failed: " ++ s),
            .farmReport "failed" ""])
        else
          (.err ("Tests failed: " ++ s),
           [.logInfo ("[" ++ browser_name ++ "] Connected to WebDriver..."),
            .navigate (testSuiteUrl local_port),
            .logInfo ("[" ++ browser_name ++ "] Running tests..."),
            .logInfo (consoleOutputNote browser_name),
            .execAsyncScript])

/-- Result of one farm-mode session future: either it completed with a
boolean (the `async move` block of cmd.rs lines 157-175 returns `bool`),
or it panicked (the only panic source inside it is
`driver.quit().await.unwrap()` at line 165). -/
inductive TaskResult where
  | completed (passed : Bool)
  | panicked (msg : String)
  deriving DecidableEq, Repr

/-- BrowserStack capability values: the per-configuration JSON objects of
cmd.rs lines 69-142 are string-keyed maps whose values are strings or nested
objects; `add` also inserts a boolean. -/
inductive CapValue where
  | cbool (b : Bool)
  | cstr (s : String)
  | cobj (entries : List (String × CapValue))

/-- A capability JSON object, as an ordered association list (the order of a
`serde_json::Map`). -/
abbrev CapMap := List (String × CapValue)

/-- One farm-mode session: the configuration name (the key of the
`capabilities_set` object), its capability JSON object, and the behaviour of
the external calls made for it. -/
structure FarmSession where
  browser_name : String
  config : CapMap
  env : SessionEnv

/-- One farm-mode session future (the closure of cmd.rs lines 147-175, after
the capability set has been built): open the session (`WebDriver::new`); on
connection error log it and complete `false`; otherwise run the suite, then
`driver.quit().await.unwrap()` (a quit failure panics), and finally map the
suite result to a boolean, logging a run error on failure. -/
def session_task (s : FarmSession) (local_port : Nat) : TaskResult × List Event :=
  match s.env.connect with
  | .err err =>
    (.completed false,
     [.openSession s.browser_name,
      .logError ("[" ++ s.browser_name ++ "] Connection error: " ++ err)])
  | .ok _ =>
    let r := test_suite_all_tests_3x s.browser_name s.env local_port true
    match s.env.quit with
    | .err e => (.panicked e, .openSession s.browser_name :: r.2 ++ [.driverQuit])
    | .ok _ =>
      match r.1 with
      | .err err =>
        (.completed false,
         .openSession s.browser_name :: r.2 ++
           [.driverQuit, .logError ("[" ++ s.browser_name ++ "] Run error: " ++ err)])
      | .ok _ => (.completed true, .openSession s.browser_name :: r.2 ++ [.driverQuit])

/-- Embedding of `futures::future::join_all` over already-launched tasks, serialized in
list order.  All futures run to completion and their results are collected in
order; if one of them panics, the panic unwinds through `join_all`, the
remaining futures are dropped, and no result list is produced. -/
def joinAll : List (TaskResult × List Event) → Res (List Bool) × List Event
  | [] => (.ok [], [])
  | (.panicked msg, evs) :: _ => (.err msg, evs)
  | (.completed b, evs) :: rest =>
    match joinAll rest with
    | (.err m, evs2) => (.err m, evs ++ evs2)
    | (.ok bs, evs2) => (.ok (b :: bs), evs ++ evs2)

/-- The two modes of `run_tests` (cmd.rs line 66): farm mode when a
BrowserStack local identifier was given, local mode otherwise. -/
inductive Mode where
  | farm (sessions : List FarmSession)
  | localBrowser (env : SessionEnv)

/-- Embedding of `run_tests` (cmd.rs lines 65-190), returning the panic
verdict (`some msg` iff the call panicked with `msg`) and the emitted events.
Farm mode: launch one `session_task` per configuration, `join_all` them, then
walk the results and `panic!("At least one test failed")` at the first
`false`.  Local mode: `WebDriver::new(..).await.unwrap()` (a connection
failure panics), run the suite with `.unwrap()` (a suite failure panics
before `driver.quit()` is reached), then `driver.quit().await.unwrap()`. -/
def run_tests (mode : Mode) (local_port : Nat) : Option String × List Event :=
  match mode with
  | .farm sessions =>
    match joinAll (sessions.map (fun s => session_task s local_port)) with
    | (.err msg, evs) => (some msg, evs)
    | (.ok results, evs) =>
      if results.all (fun b => b) then (none, evs) else (some "At least one test failed", evs)
  | .localBrowser env =>
    match env.connect with
    | .err e => (some e, [.openSession "local browser"])
    | .ok _ =>
      let r := test_suite_all_tests_3x "local browser" env local_port false
      match r.1 with
      | .err e => (some e, .openSession "local browser" :: r.2)
      | .ok _ =>
        match env.quit with
        | .err e => (some e, .openSession "local browser" :: r.2 ++ [.driverQuit])
        | .ok _ => (none, .openSession "local browser" :: r.2 ++ [.driverQuit])

/-- The port `cmd` serves on (cmd.rs line 46). -/
def local_port : Nat := 1122

/-- Events of `server_thread` (cmd.rs lines 246-282) up to and including the
handle publication, when `bind_openssl(..).unwrap()` succeeds: certificate
generation, the bind, the single `tx.send(server.handle())`, and the final
log line before the server blocks serving. -/
def server_events : List Event :=
  [.logInfo "Generating self-signed certificates",
   .logInfo "Static HTTPS server of '.' starting on port 1122",
   .serverBind 1122,
   .handlePublish,
   .logInfo "Serving on https://localhost:1122"]

/-- Events of `server_thread` when the bind fails: the `unwrap` at cmd.rs
line 274 panics in the server thread, so the handle is never sent. -/
def server_events_bind_failed : List Event :=
  [.logInfo "Generating self-signed certificates",
   .logInfo "Static HTTPS server of '.' starting on port 1122",
   .serverBind 1122]

/-- Embedding of `cmd` (cmd.rs lines 22-63): spawn the server thread, block
on `rx.recv().unwrap()` for the handle, run `run_tests`, and only then await
`server_handle.stop(true)` and join the server thread.  A panic anywhere in
`run_tests` unwinds the main thread before `stop` is ever requested; a failed
bind makes `rx.recv()` fail, which panics before any session starts. -/
def cmd (mode : Mode) (bindOk : Bool) : Option String × List Event :=
  if bindOk then
    match run_tests mode local_port with
    | (some msg, testEvs) => (some msg, server_events ++ testEvs)
    | (none, testEvs) =>
      (none, server_events ++ testEvs ++ [.shutdownRequest, .shutdownConfirmed])
  else
    (some "called Result::unwrap on an Err value: RecvError", server_events_bind_failed)

/-- Events that session code can emit.  For a farm report event this also
checks the payload shape used at cmd.rs lines 219-220 and 232-233: the status
is the literal `passed` or `failed` and the reason field is always the empty
string. -/
def Event.sessionLevelOk : Event → Bool
  | .farmReport st r => (r == "") && ((st == "passed") || (st == "failed"))
  | .logInfo _ => true
  | .logError _ => true
  | .openSession _ => true
  | .navigate _ => true
  | .execAsyncScript => true
  | .driverQuit => true
  | .serverBind _ => false
  | .handlePublish => false
  | .shutdownRequest => false
  | .shutdownConfirmed => false

/-- Events that `test_suite_all_tests_3x` itself can emit (a strict subset of
the session-level events: it never opens, quits, or touches the server). -/
def Event.suiteLevelOk : Event → Bool
  | .farmReport st r => (r == "") && ((st == "passed") || (st == "failed"))
  | .logInfo _ => true
  | .logError _ => true
  | .navigate _ => true
  | .execAsyncScript => true
  | _ => false

/-- Events that are requests issued on behalf of a session (session open,
navigation, script execution, status report, session close). -/
def Event.isSessionRequest : Event → Bool
  | .openSession _ => true
  | .navigate _ => true
  | .execAsyncScript => true
  | .farmReport _ _ => true
  | .driverQuit => true
  | _ => false

/-- The events of a trace that precede the handle publication. -/
def beforePublish (evs : List Event) : List Event :=
  evs.takeWhile (fun e => !(e == Event.handlePublish))

/-- The spec's per-session outcome abstraction. -/
inductive SessionOutcome where
  | Passed
  | ConnectionFailed (reason : String)
  | RunFailed (reason : String)
  deriving DecidableEq, Repr

/-- The session outcome, read off the branches of `run_tests`: a
`WebDriver::new` error is the connection-failure branch (cmd.rs line 159 in
farm mode, the `unwrap` at line 186 in local mode), carrying that error; a
suite error is the run-failure branch (line 167 in farm mode, the `unwrap`
at line 187 in local mode), carrying the `Err` payload returned by
`test_suite_all_tests_3x`; a suite `Ok` is a pass. -/
def session_outcome (browser_name : String) (env : SessionEnv) (port : Nat)
    (is_browserstack : Bool) : SessionOutcome :=
  match env.connect with
  | .err e => .ConnectionFailed e
  | .ok _ =>
    match (test_suite_all_tests_3x browser_name env port is_browserstack).1 with
    | .ok _ => .Passed
    | .err e => .RunFailed e

/-- Whether a farm session's future completes with `true` (cmd.rs lines
158-174): the session opened and the suite returned `Ok`. -/
def session_passed (s : FarmSession) (port : Nat) : Bool :=
  match s.env.connect with
  | .err _ => false
  | .ok _ =>
    match (test_suite_all_tests_3x s.browser_name s.env port true).1 with
    | .ok _ => true
    | .err _ => false

/-- The collected farm-mode results, as produced by `join_all` (cmd.rs line
178): one boolean per configuration when every future completes, or the
propagated panic when one of them panics. -/
def farmResults (sessions : List FarmSession) (port : Nat) : Res (List Bool) :=
  (joinAll (sessions.map (fun s => session_task s port))).1

/-- Embedding of `serde_json::Map` insertion: replace the value at the key in place, or
append the pair at the end. -/
def capInsert : CapMap → String → CapValue → CapMap
  | [], k, v => [(k, v)]
  | (k', v') :: rest, k, v =>
    if k' = k then (k, v) :: rest else (k', v') :: capInsert rest k v

/-- Embedding of `serde_json::Map` lookup. -/
def capLookup : CapMap → String → Option CapValue
  | [], _ => none
  | (k', v') :: rest, k => if k' = k then some v' else capLookup rest k

/-- Model of `DesiredCapabilities::add_subkey` of the thirtyfour crate (an external
collaborator): insert the sub-key into the JSON object stored at `key`,
creating that object when `key` is absent or does not hold an object. -/
def capAddSubkey (m : CapMap) (key subkey : String) (v : CapValue) : CapMap :=
  match capLookup m key with
  | some (.cobj sub) => capInsert m key (.cobj (capInsert sub subkey v))
  | _ => capInsert m key (.cobj [(subkey, v)])

/-- The capability set sent to the remote driver for one farm configuration
(cmd.rs lines 148-155): the configuration's own JSON object, with
`acceptSslCerts` forced to `true` and the six BrowserStack options added
under `bstack:options`. -/
def build_farm_capabilities (config : CapMap) (localIdentifier : String) : CapMap :=
  let c := capInsert config "acceptSslCerts" (.cbool true)
  let c := capAddSubkey c "bstack:options" "projectName" (.cstr "Zaplib")
  let c := capAddSubkey c "bstack:options" "buildName" (.cstr "test_suite")
  let c := capAddSubkey c "bstack:options" "local" (.cstr "true")
  let c := capAddSubkey c "bstack:options" "networkLogs" (.cstr "true")
  let c := capAddSubkey c "bstack:options" "seleniumVersion" (.cstr "3.5.2")
  capAddSubkey c "bstack:options" "localIdentifier" (.cstr localIdentifier)

/-- The capability set sent to the local driver (cmd.rs lines 184-185): an
empty JSON object with `acceptSslCerts` forced to `true`. -/
def build_local_capabilities : CapMap :=
  capInsert [] "acceptSslCerts" (.cbool true)

/-! Concrete sample sessions, used by the counterexamples and witnesses. -/

/-- A session in which every external call succeeds and the suite resolves
the success sentinel. -/
def envAllOk : SessionEnv :=
  { connect := .ok (), navigateRes := .ok (), script := .ok (.jstr "SUCCESS"),
    farmReportRes := .ok (), quit := .ok () }

/-- Like `envAllOk`, but the in-page suite resolves a failure detail. -/
def envSuiteFails : SessionEnv :=
  { envAllOk with script := .ok (.jstr "Error: assertion failed") }

/-- Like `envAllOk`, but `driver.quit()` fails. -/
def envQuitFails : SessionEnv :=
  { envAllOk with quit := .err "session not closed" }

/-- Like `envAllOk`, but the BrowserStack status-report call fails. -/
def envReportFails : SessionEnv :=
  { envAllOk with farmReportRes := .err "farm unreachable" }

/-- Like `envAllOk`, but `WebDriver::new` fails. -/
def envConnFails : SessionEnv :=
  { envAllOk with connect := .err "connection refused" }

/-- Like `envAllOk`, but the script resolves a non-string JSON value. -/
def envNonString : SessionEnv :=
  { envAllOk with script := .ok .jnull }

def sAllOk : FarmSession :=
  { browser_name := "OS X Monterey, Chrome", config := [], env := envAllOk }

def sSuiteFails : FarmSession :=
  { browser_name := "Windows 11, Edge", config := [], env := envSuiteFails }

def sQuitFails : FarmSession :=
  { browser_name := "Windows 11, Chrome", config := [], env := envQuitFails }

/-! Infrastructure lemmas: every event emitted by session code is
session-level (in particular it is never a handle publication or a shutdown
event, and every farm report it contains has an empty reason). -/

theorem test_suite_events_ok (browser_name : String) (env : SessionEnv) (port : Nat)
    (bs : Bool) :
    ∀ e ∈ (test_suite_all_tests_3x browser_name env port bs).2, e.suiteLevelOk = true := by
  rcases env with ⟨c, nav, scr, rep, q⟩
  unfold test_suite_all_tests_3x
  dsimp only
  cases nav with
  | err e => intro x hx; fin_cases hx <;> rfl
  | ok u =>
    cases scr with
    | err e => intro x hx; fin_cases hx <;> rfl
    | ok v =>
      by_cases hs : (JsonValue.asStr v).getD noStringReturned = "SUCCESS" <;>
        simp only [hs, if_true, if_false, reduceIte] <;>
        cases bs <;> cases rep <;>
        · intro x hx; fin_cases hx <;> rfl

theorem suiteLevelOk_sessionLevelOk (e : Event) (h : e.suiteLevelOk = true) :
    e.sessionLevelOk = true := by
  cases e <;> revert h <;> simp [Event.suiteLevelOk, Event.sessionLevelOk]

theorem session_task_events_ok (s : FarmSession) (port : Nat) :
    ∀ e ∈ (session_task s port).2, e.sessionLevelOk = true := by
  unfold session_task
  cases hc : s.env.connect with
  | err e => intro x hx; fin_cases hx <;> rfl
  | ok u =>
    have hsuite : ∀ e ∈ (test_suite_all_tests_3x s.browser_name s.env port true).2,
        e.sessionLevelOk = true :=
      fun e he => suiteLevelOk_sessionLevelOk e (test_suite_events_ok s.browser_name s.env port true e he)
    cases hq : s.env.quit with
    | err e =>
      intro x hx
      dsimp only at hx
      rcases List.mem_cons.mp hx with rfl | hx
      · rfl
      rcases List.mem_append.mp hx with hx | hx
      · exact hsuite x hx
      · fin_cases hx; rfl
    | ok u2 =>
      cases hr : (test_suite_all_tests_3x s.browser_name s.env port true).1 with
      | err e =>
        intro x hx
        dsimp only at hx
        rw [hr] at hx
        dsimp only at hx
        rcases List.mem_cons.mp hx with rfl | hx
        · rfl
        rcases List.mem_append.mp hx with hx | hx
        · exact hsuite x hx
        · fin_cases hx <;> rfl
      | ok u3 =>
        intro x hx
        dsimp only at hx
        rw [hr] at hx
        dsimp only at hx
        rcases List.mem_cons.mp hx with rfl | hx
        · rfl
        rcases List.mem_append.mp hx with hx | hx
        · exact hsuite x hx
        · fin_cases hx; rfl

theorem joinAll_events (P : Event → Prop) :
    ∀ tasks : List (TaskResult × List Event),
      (∀ t ∈ tasks, ∀ e ∈ t.2, P e) → ∀ e ∈ (joinAll tasks).2, P e := by
  intro tasks
  induction tasks with
  | nil => intro _ e he; simp [joinAll] at he
  | cons t rest ih =>
    intro h e he
    rcases t with ⟨tr, evs⟩
    have hhead : ∀ x ∈ evs, P x :=
      fun x hx => h (tr, evs) (List.mem_cons_self _ _) x hx
    have htail : ∀ x ∈ (joinAll rest).2, P x :=
      ih (fun t ht => h t (List.mem_cons_of_mem _ ht))
    cases tr with
    | panicked m =>
      simp only [joinAll] at he
      exact hhead e he
    | completed b =>
      simp only [joinAll] at he
      rcases hj : joinAll rest with ⟨r, evs2⟩
      rw [hj] at he htail
      cases r with
      | err m =>
        dsimp only at he
        rcases List.mem_append.mp he with h1 | h2
        · exact hhead e h1
        · exact htail e h2
      | ok bs =>
        dsimp only at he
        rcases List.mem_append.mp he with h1 | h2
        · exact hhead e h1
        · exact htail e h2

theorem run_tests_events_ok (mode : Mode) (port : Nat) :
    ∀ e ∈ (run_tests mode port).2, e.sessionLevelOk = true := by
  cases mode with
  | farm sessions =>
    have hall : ∀ t ∈ sessions.map (fun s => session_task s port),
        ∀ e ∈ t.2, e.sessionLevelOk = true := by
      intro t ht e he
      rcases List.mem_map.mp ht with ⟨s, _, rfl⟩
      exact session_task_events_ok s port e he
    have hlift := joinAll_events (fun e => e.sessionLevelOk = true) _ hall
    intro e he
    unfold run_tests at he
    dsimp only at he
    rcases hj : joinAll (sessions.map (fun s => session_task s port)) with ⟨r, evs⟩
    rw [hj] at he hlift
    cases r with
    | err m => exact hlift e he
    | ok results =>
      dsimp only at he hlift
      split at he <;> exact hlift e he
  | localBrowser env =>
    have hsuite : ∀ e ∈ (test_suite_all_tests_3x "local browser" env port false).2,
        e.sessionLevelOk = true :=
      fun e he => suiteLevelOk_sessionLevelOk e (test_suite_events_ok "local browser" env port false e he)
    intro x hx
    unfold run_tests at hx
    dsimp only at hx
    split at hx
    · fin_cases hx; rfl
    · split at hx
      · rcases List.mem_cons.mp hx with rfl | hx
        · rfl
        · exact hsuite x hx
      · split at hx <;>
        · rcases List.mem_cons.mp hx with rfl | hx
          · rfl
          rcases List.mem_append.mp hx with hx | hx
          · exact hsuite x hx
          · fin_cases hx; rfl

theorem run_tests_no_shutdown (mode : Mode) (port : Nat) :
    Event.shutdownRequest ∉ (run_tests mode port).2 ∧
    Event.shutdownConfirmed ∉ (run_tests mode port).2 :=
  ⟨fun h => absurd (run_tests_events_ok mode port _ h) (by decide),
   fun h => absurd (run_tests_events_ok mode port _ h) (by decide)⟩

theorem run_tests_no_publish (mode : Mode) (port : Nat) :
    Event.handlePublish ∉ (run_tests mode port).2 :=
  fun h => absurd (run_tests_events_ok mode port _ h) (by decide)

/-- C1 (counterexample): in a farm run with two sessions in which the second
one's suite fails, `run_tests` panics with "At least one test failed", and
the AssetServer shutdown is never requested (and a fortiori never
confirmed) — refuting the claim that the shutdown request and confirmation
happen before the aggregate failure also when some outcome is not Passed. -/
theorem c1_shutdown_counterexample :
    (cmd (Mode.farm [sAllOk, sSuiteFails]) true).1 = some "At least one test failed" ∧
    Event.shutdownRequest ∉ (cmd (Mode.farm [sAllOk, sSuiteFails]) true).2 ∧
    Event.shutdownConfirmed ∉ (cmd (Mode.farm [sAllOk, sSuiteFails]) true).2 := by
  decide

/-- C1 (amended): when the whole run succeeds (no panic), the Orchestrator
requests AssetServer shutdown and waits for confirmation after every other
event (in particular after all session outcomes) and just before the process
exits; but when any session outcome is not Passed — or any step panics — the
failure propagates before the shutdown request, which never happens. -/
theorem c1_shutdown_amended (mode : Mode) :
    ((cmd mode true).1 = none →
       (cmd mode true).2.getLast? = some Event.shutdownConfirmed ∧
       (cmd mode true).2.dropLast.getLast? = some Event.shutdownRequest ∧
       ∀ e ∈ (cmd mode true).2.dropLast.dropLast,
         e ≠ Event.shutdownRequest ∧ e ≠ Event.shutdownConfirmed) ∧
    (∀ msg, (cmd mode true).1 = some msg →
       Event.shutdownRequest ∉ (cmd mode true).2 ∧
       Event.shutdownConfirmed ∉ (cmd mode true).2) := by
  have hts := run_tests_events_ok mode local_port
  rcases hrt : run_tests mode local_port with ⟨p, testEvs⟩
  rw [hrt] at hts
  cases p with
  | some msg =>
    have hc : cmd mode true = (some msg, server_events ++ testEvs) := by
      unfold cmd; rw [hrt]; rfl
    rw [hc]
    refine ⟨fun h => by simp at h, fun m _ => ⟨fun hmem => ?_, fun hmem => ?_⟩⟩
    · rcases List.mem_append.mp hmem with h1 | h2
      · exact absurd h1 (by decide)
      · exact absurd (hts _ h2) (by decide)
    · rcases List.mem_append.mp hmem with h1 | h2
      · exact absurd h1 (by decide)
      · exact absurd (hts _ h2) (by decide)
  | none =>
    have hc : cmd mode true =
        (none, server_events ++ testEvs ++ [Event.shutdownRequest, Event.shutdownConfirmed]) := by
      unfold cmd; rw [hrt]; rfl
    rw [hc]
    have hsplit : server_events ++ testEvs ++ [Event.shutdownRequest, Event.shutdownConfirmed]
        = ((server_events ++ testEvs) ++ [Event.shutdownRequest]) ++ [Event.shutdownConfirmed] := by
      simp [List.append_assoc]
    refine ⟨fun _ => ?_, fun m hm => by simp at hm⟩
    rw [hsplit]
    refine ⟨List.getLast?_concat _, ?_, ?_⟩
    · rw [List.dropLast_concat]
      exact List.getLast?_concat _
    · rw [List.dropLast_concat, List.dropLast_concat]
      intro e he
      rcases List.mem_append.mp he with h1 | h2
      · have hsrv : ∀ x ∈ server_events,
            x ≠ Event.shutdownRequest ∧ x ≠ Event.shutdownConfirmed := by decide
        exact hsrv e h1
      · exact ⟨fun hh => absurd (hts _ h2) (by rw [hh]; decide),
               fun hh => absurd (hts _ h2) (by rw [hh]; decide)⟩

/-- C1 (witness): on a fully passing farm run the trace ends with the
shutdown confirmation; on a run with a failing suite the shutdown request is
absent from the trace. -/
theorem c1_shutdown_amended_witness :
    (cmd (Mode.farm [sAllOk]) true).2.getLast? = some Event.shutdownConfirmed ∧
    Event.shutdownRequest ∉ (cmd (Mode.farm [sSuiteFails]) true).2 :=
  ⟨((c1_shutdown_amended (Mode.farm [sAllOk])).1 (by decide)).1,
   (((c1_shutdown_amended (Mode.farm [sSuiteFails])).2 "At least one test failed"
      (by decide)).1)⟩

theorem session_task_completed (s : FarmSession) (port : Nat)
    (h : s.env.quit = Res.ok ()) :
    (session_task s port).1 = TaskResult.completed (session_passed s port) := by
  unfold session_task session_passed
  cases hc : s.env.connect with
  | err e => rfl
  | ok u =>
    rw [h]
    dsimp only
    cases hr : (test_suite_all_tests_3x s.browser_name s.env port true).1 with
    | err e => rfl
    | ok u2 => rfl

theorem farmResults_completed (sessions : List FarmSession) (port : Nat)
    (h : ∀ s ∈ sessions, s.env.quit = Res.ok ()) :
    farmResults sessions port = Res.ok (sessions.map (fun s => session_passed s port)) := by
  induction sessions with
  | nil => rfl
  | cons s rest ih =>
    have hs := session_task_completed s port (h s (List.mem_cons_self _ _))
    have hr := ih (fun t ht => h t (List.mem_cons_of_mem _ ht))
    unfold farmResults at hr ⊢
    simp only [List.map_cons]
    rcases hst : session_task s port with ⟨tr, evs⟩
    rw [hst] at hs
    dsimp only at hs
    subst hs
    rcases hj : joinAll (rest.map (fun x => session_task x port)) with ⟨r, evs2⟩
    rw [hj] at hr
    dsimp only at hr
    subst hr
    simp only [joinAll, hj]

theorem session_passed_iff_outcome (s : FarmSession) (port : Nat) :
    session_passed s port = true ↔
      session_outcome s.browser_name s.env port true = SessionOutcome.Passed := by
  unfold session_passed session_outcome
  cases s.env.connect with
  | err e => simp
  | ok u => cases (test_suite_all_tests_3x s.browser_name s.env port true).1 <;> simp

/-- C2 (counterexample): with two submitted configurations in which the
first session's `driver.quit()` fails, the `unwrap` at cmd.rs line 165
panics, `join_all` unwinds, and no list of outcomes is produced at all — the
second session (which would have passed) is dropped.  This refutes the claim
that exactly N session outcomes are always produced. -/
theorem c2_outcomes_counterexample :
    farmResults [sQuitFails, sAllOk] local_port = Res.err "session not closed" ∧
    (run_tests (Mode.farm [sQuitFails, sAllOk]) local_port).1 = some "session not closed" ∧
    session_passed sAllOk local_port = true := by decide

/-- C2 (amended): in farm mode, provided no session's `driver.quit()` fails,
exactly N outcomes are produced for N submitted configurations — one boolean
per configuration, in order, no task dropped and no failing task cancelling a
sibling — and the run succeeds (no panic) iff every outcome is Passed.  A
failing `driver.quit()` panics and aborts the whole run instead. -/
theorem c2_outcomes_amended (sessions : List FarmSession)
    (h : ∀ s ∈ sessions, s.env.quit = Res.ok ()) :
    farmResults sessions local_port =
      Res.ok (sessions.map (fun s => session_passed s local_port)) ∧
    (sessions.map (fun s => session_passed s local_port)).length = sessions.length ∧
    ((run_tests (Mode.farm sessions) local_port).1 = none ↔
      ∀ s ∈ sessions,
        session_outcome s.browser_name s.env local_port true = SessionOutcome.Passed) := by
  have hfr := farmResults_completed sessions local_port h
  refine ⟨hfr, List.length_map _ _, ?_⟩
  unfold farmResults at hfr
  unfold run_tests
  dsimp only
  rcases hj : joinAll (sessions.map (fun s => session_task s local_port)) with ⟨r, evs⟩
  rw [hj] at hfr
  dsimp only at hfr
  subst hfr
  dsimp only
  by_cases hall : ((sessions.map (fun s => session_passed s local_port)).all (fun b => b)) = true
  · rw [if_pos hall]
    simp only [true_iff]
    intro s hs
    have hb := (List.all_eq_true.mp hall) (session_passed s local_port)
      (List.mem_map_of_mem _ hs)
    exact (session_passed_iff_outcome s local_port).mp hb
  · rw [if_neg hall]
    constructor
    · intro hcontra; exact absurd hcontra (by simp)
    · intro hpass
      exfalso
      apply hall
      rw [List.all_eq_true]
      intro b hb
      rcases List.mem_map.mp hb with ⟨s, hs, rfl⟩
      exact (session_passed_iff_outcome s local_port).mpr (hpass s hs)

/-- C2 (witness): a single all-passing configuration yields exactly one
outcome and the run succeeds. -/
theorem c2_outcomes_amended_witness :
    farmResults [sAllOk] local_port = Res.ok [true] ∧
    (run_tests (Mode.farm [sAllOk]) local_port).1 = none := by
  have h := c2_outcomes_amended [sAllOk] (by decide)
  exact ⟨h.1.trans (by decide), h.2.2.mpr (by decide)⟩

/-- C3 (counterexample): when the suite resolves the string
"Error: assertion failed" in local mode, the session's run-failure reason is
"Tests failed: Error: assertion failed", not the resolved string itself; and
in farm mode a session whose script resolved "SUCCESS" is nevertheless not
Passed when the subsequent status report fails. -/
theorem c3_classification_counterexample :
    session_outcome "local browser" envSuiteFails local_port false ≠
      SessionOutcome.RunFailed "Error: assertion failed" ∧
    session_outcome "local browser" envSuiteFails local_port false =
      SessionOutcome.RunFailed "Tests failed: Error: assertion failed" ∧
    session_outcome "OS X Monterey, Chrome" envReportFails local_port true ≠
      SessionOutcome.Passed := by decide

/-- C3 (amended): a connection failure always yields ConnectionFailed
(never RunFailed); a resolution of "SUCCESS" yields Passed in local mode, and
in farm mode provided the subsequent status report succeeds; any other
resolved string s yields a run failure whose reason embeds s as
"Tests failed: s" in local mode, while in farm mode s is logged in the
failure log entry and the propagated reason is the fixed
"Tests failed (see above)" when the status report succeeds. -/
theorem c3_classification_amended (browser_name : String) (env : SessionEnv) (port : Nat) :
    (∀ e, env.connect = Res.err e → ∀ bs,
       session_outcome browser_name env port bs = SessionOutcome.ConnectionFailed e ∧
       ∀ r, session_outcome browser_name env port bs ≠ SessionOutcome.RunFailed r) ∧
    (env.connect = Res.ok () → env.navigateRes = Res.ok () →
     env.script = Res.ok (JsonValue.jstr "SUCCESS") →
       session_outcome browser_name env port false = SessionOutcome.Passed ∧
       (env.farmReportRes = Res.ok () →
         session_outcome browser_name env port true = SessionOutcome.Passed)) ∧
    (∀ s, env.connect = Res.ok () → env.navigateRes = Res.ok () →
     env.script = Res.ok (JsonValue.jstr s) → s ≠ "SUCCESS" →
       session_outcome browser_name env port false =
         SessionOutcome.RunFailed ("Tests failed: " ++ s) ∧
       Event.logError ("[" ++ browser_name ++ "] Tests failed: " ++ s) ∈
         (test_suite_all_tests_3x browser_name env port true).2 ∧
       (env.farmReportRes = Res.ok () →
         session_outcome browser_name env port true =
           SessionOutcome.RunFailed "Tests failed (see above)")) := by
  refine ⟨?_, ?_, ?_⟩
  · intro e he bs
    unfold session_outcome
    rw [he]
    exact ⟨rfl, fun r => by simp⟩
  · intro hc hn hs
    unfold session_outcome test_suite_all_tests_3x
    rw [hc, hn, hs]
    refine ⟨by simp [JsonValue.asStr, Option.getD], fun hrep => ?_⟩
    rw [hrep]
    simp [JsonValue.asStr, Option.getD]
  · intro s hc hn hs hne
    unfold session_outcome test_suite_all_tests_3x
    rw [hc, hn, hs]
    simp only [JsonValue.asStr, Option.getD, if_neg hne]
    refine ⟨by simp [hne], ?_, fun hrep => ?_⟩
    · cases hrep : env.farmReportRes <;> simp [hne]
    · rw [hrep]
      simp [hne]

/-- C3 (witness): concrete instances of the three amended clauses. -/
theorem c3_classification_amended_witness :
    session_outcome "local browser" envConnFails local_port false =
      SessionOutcome.ConnectionFailed "connection refused" ∧
    session_outcome "OS X Monterey, Chrome" envAllOk local_port true =
      SessionOutcome.Passed ∧
    session_outcome "local browser" envSuiteFails local_port false =
      SessionOutcome.RunFailed "Tests failed: Error: assertion failed" := by
  have h1 := (c3_classification_amended "local browser" envConnFails local_port).1
    "connection refused" (by decide) false
  have h2 := (c3_classification_amended "OS X Monterey, Chrome" envAllOk local_port).2.1
    (by decide) (by decide) (by decide)
  have h3 := (c3_classification_amended "local browser" envSuiteFails local_port).2.2
    "Error: assertion failed" (by decide) (by decide) (by decide) (by decide)
  exact ⟨h1.1, h2.2 (by decide), h3.1⟩

/-- C4 (counterexample): a session whose suite resolved "SUCCESS" is not
classified Passed when the farm status-report call fails — the report error
propagates with the question-mark operator at cmd.rs line 222 and becomes the
session's run failure. -/
theorem c4_report_failure_counterexample :
    session_outcome "OS X Monterey, Edge" envReportFails local_port true =
      SessionOutcome.RunFailed "farm unreachable" ∧
    session_outcome "OS X Monterey, Edge" envReportFails local_port true ≠
      SessionOutcome.Passed := by decide

/-- C4 (amended): a failure of the farm status-report call is not
logged-only: it propagates as the session's error.  After a "SUCCESS"
resolution it turns the outcome from Passed into RunFailed carrying the
report error; after a failed resolution the outcome stays a run failure
(now carrying the report error) and the local failure diagnostic has already
been logged before the report was attempted. -/
theorem c4_report_failure_amended (browser_name : String) (env : SessionEnv) (port : Nat)
    (e : String) (hc : env.connect = Res.ok ()) (hn : env.navigateRes = Res.ok ())
    (hrep : env.farmReportRes = Res.err e) :
    (env.script = Res.ok (JsonValue.jstr "SUCCESS") →
       session_outcome browser_name env port true = SessionOutcome.RunFailed e) ∧
    (∀ s, env.script = Res.ok (JsonValue.jstr s) → s ≠ "SUCCESS" →
       session_outcome browser_name env port true = SessionOutcome.RunFailed e ∧
       Event.logError ("[" ++ browser_name ++ "] Tests failed: " ++ s) ∈
         (test_suite_all_tests_3x browser_name env port true).2) := by
  constructor
  · intro hs
    unfold session_outcome test_suite_all_tests_3x
    rw [hc, hn, hs, hrep]
    simp [JsonValue.asStr, Option.getD]
  · intro s hs hne
    unfold session_outcome test_suite_all_tests_3x
    rw [hc, hn, hs, hrep]
    simp [JsonValue.asStr, Option.getD, hne]

/-- C4 (witness): concrete instance — suite passed, report failed, outcome
is the report failure. -/
theorem c4_report_failure_amended_witness :
    session_outcome "Samsung Galaxy S21, Android 11.0" envReportFails local_port true =
      SessionOutcome.RunFailed "farm unreachable" :=
  (c4_report_failure_amended "Samsung Galaxy S21, Android 11.0" envReportFails local_port
    "farm unreachable" (by decide) (by decide) (by decide)).1 (by decide)

/-- C5 (counterexample): a failure of `driver.quit()` is not surfaced as a
logged warning — the `unwrap` at cmd.rs line 165 panics and the panic aborts
the whole run; and in local mode a session whose suite failed is never
released at all (the `unwrap` at line 187 panics before `driver.quit()` at
line 188 is reached). -/
theorem c5_release_counterexample :
    (session_task sQuitFails local_port).1 = TaskResult.panicked "session not closed" ∧
    (run_tests (Mode.farm [sQuitFails]) local_port).1 = some "session not closed" ∧
    Event.driverQuit ∉ (run_tests (Mode.localBrowser envSuiteFails) local_port).2 := by
  decide

/-- C5 (amended): in farm mode an opened session is released regardless of
the suite outcome; in local mode it is released only when the suite
succeeded — a failed suite panics before the release.  A release failure is
not a logged warning: it panics with the release error and aborts the run. -/
theorem c5_release_amended (s : FarmSession) (env : SessionEnv) :
    (s.env.connect = Res.ok () → Event.driverQuit ∈ (session_task s local_port).2) ∧
    (∀ e, s.env.connect = Res.ok () → s.env.quit = Res.err e →
       (session_task s local_port).1 = TaskResult.panicked e) ∧
    (env.connect = Res.ok () →
     (test_suite_all_tests_3x "local browser" env local_port false).1 = Res.ok () →
       Event.driverQuit ∈ (run_tests (Mode.localBrowser env) local_port).2) ∧
    (∀ e, env.connect = Res.ok () →
     (test_suite_all_tests_3x "local browser" env local_port false).1 = Res.err e →
       Event.driverQuit ∉ (run_tests (Mode.localBrowser env) local_port).2 ∧
       (run_tests (Mode.localBrowser env) local_port).1 = some e) ∧
    (∀ e, env.connect = Res.ok () →
     (test_suite_all_tests_3x "local browser" env local_port false).1 = Res.ok () →
     env.quit = Res.err e →
       (run_tests (Mode.localBrowser env) local_port).1 = some e) := by
  refine ⟨?_, ?_, ?_, ?_, ?_⟩
  · intro hc
    unfold session_task
    rw [hc]
    dsimp only
    cases hq : s.env.quit with
    | err e => simp
    | ok u =>
      cases hrs : (test_suite_all_tests_3x s.browser_name s.env local_port true).1 with
      | err e2 => simp
      | ok u2 => simp
  · intro e hc hq
    unfold session_task
    rw [hc, hq]
  · intro hc hr
    unfold run_tests
    dsimp only
    rw [hc]
    dsimp only
    rw [hr]
    cases hq : env.quit <;> simp
  · intro e hc hr
    unfold run_tests
    dsimp only
    rw [hc]
    dsimp only
    rw [hr]
    constructor
    · intro hmem
      have := test_suite_events_ok "local browser" env local_port false
      rcases List.mem_cons.mp hmem with habs | hmem2
      · exact absurd habs (by decide)
      · exact absurd (this _ hmem2) (by decide)
    · rfl
  · intro e hc hr hq
    unfold run_tests
    dsimp only
    rw [hc]
    dsimp only
    rw [hr, hq]

/-- C5 (witness): concrete instances — release attempted in farm mode even
for a failing suite, release failure panics, local-mode success releases. -/
theorem c5_release_amended_witness :
    Event.driverQuit ∈ (session_task sSuiteFails local_port).2 ∧
    (session_task sQuitFails local_port).1 = TaskResult.panicked "session not closed" ∧
    Event.driverQuit ∈ (run_tests (Mode.localBrowser envAllOk) local_port).2 :=
  ⟨(c5_release_amended sSuiteFails envAllOk).1 (by decide),
   (c5_release_amended sQuitFails envAllOk).2.1 "session not closed" (by decide) (by decide),
   (c5_release_amended sAllOk envAllOk).2.2.1 (by decide) (by decide)⟩

/-- C6: in every run that binds successfully, the trace contains exactly one
handle publication; the bind event precedes it; no session request (session
open, navigation, script execution, status report, or session close) occurs
before the publication; and when the bind fails, no handle is ever published
and no session request is ever issued. -/
theorem c6_handle_publish (mode : Mode) :
    (cmd mode true).2.count Event.handlePublish = 1 ∧
    Event.serverBind 1122 ∈ beforePublish (cmd mode true).2 ∧
    (∀ e ∈ beforePublish (cmd mode true).2, e.isSessionRequest = false) ∧
    (cmd mode false).2.count Event.handlePublish = 0 ∧
    (∀ e ∈ (cmd mode false).2, e.isSessionRequest = false) := by
  have hts := run_tests_events_ok mode local_port
  rcases hrt : run_tests mode local_port with ⟨p, testEvs⟩
  rw [hrt] at hts
  have hnp : Event.handlePublish ∉ testEvs := fun hmem => absurd (hts _ hmem) (by decide)
  have hcnt0 : testEvs.count Event.handlePublish = 0 := List.count_eq_zero.mpr hnp
  have hbp : ∀ evs : List Event, beforePublish (server_events ++ evs) =
      [Event.logInfo "Generating self-signed certificates",
       Event.logInfo "Static HTTPS server of '.' starting on port 1122",
       Event.serverBind 1122] := fun evs => rfl
  have hfail2 : (cmd mode false).2 = server_events_bind_failed := rfl
  refine ⟨?_, ?_, ?_, ?_, ?_⟩
  · cases p with
    | some msg =>
      have hc : cmd mode true = (some msg, server_events ++ testEvs) := by
        unfold cmd; rw [hrt]; rfl
      rw [hc]
      rw [List.count_append, hcnt0]
      decide
    | none =>
      have hc : cmd mode true =
          (none, server_events ++ testEvs ++ [Event.shutdownRequest, Event.shutdownConfirmed]) := by
        unfold cmd; rw [hrt]; rfl
      rw [hc]
      rw [List.count_append, List.count_append, hcnt0]
      decide
  · cases p with
    | some msg =>
      have hc : cmd mode true = (some msg, server_events ++ testEvs) := by
        unfold cmd; rw [hrt]; rfl
      rw [hc]
      rw [hbp]
      decide
    | none =>
      have hc : cmd mode true =
          (none, server_events ++ testEvs ++ [Event.shutdownRequest, Event.shutdownConfirmed]) := by
        unfold cmd; rw [hrt]; rfl
      rw [hc, List.append_assoc, hbp]
      decide
  · cases p with
    | some msg =>
      have hc : cmd mode true = (some msg, server_events ++ testEvs) := by
        unfold cmd; rw [hrt]; rfl
      rw [hc]
      rw [hbp]
      decide
    | none =>
      have hc : cmd mode true =
          (none, server_events ++ testEvs ++ [Event.shutdownRequest, Event.shutdownConfirmed]) := by
        unfold cmd; rw [hrt]; rfl
      rw [hc, List.append_assoc, hbp]
      decide
  · rw [hfail2]; decide
  · rw [hfail2]; decide

/-- C6 (witness): on a concrete passing run the bind event sits in the
published-handle prelude, which contains no session request; on a concrete
failed-bind run no handle is published. -/
theorem c6_handle_publish_witness :
    (cmd (Mode.farm [sAllOk]) true).2.count Event.handlePublish = 1 ∧
    (Event.serverBind 1122).isSessionRequest = false ∧
    (cmd (Mode.farm [sAllOk]) false).2.count Event.handlePublish = 0 :=
  ⟨(c6_handle_publish (Mode.farm [sAllOk])).1,
   (c6_handle_publish (Mode.farm [sAllOk])).2.2.1 (Event.serverBind 1122)
     ((c6_handle_publish (Mode.farm [sAllOk])).2.1),
   (c6_handle_publish (Mode.farm [sAllOk])).2.2.2.1⟩

/-- C7: in farm mode, whenever the suite resolves a non-success string s, the
local failure log entry (configuration name plus s) sits at position 5 of the
session's suite trace and the farm status-report attempt at position 6 — the
diagnostic is always emitted before the report call, whatever the fate of the
report call (the environment's report result is unconstrained here). -/
theorem c7_log_before_report (browser_name : String) (env : SessionEnv) (s : String)
    (hn : env.navigateRes = Res.ok ()) (hs : env.script = Res.ok (JsonValue.jstr s))
    (hne : s ≠ "SUCCESS") :
    ((test_suite_all_tests_3x browser_name env local_port true).2)[5]? =
      some (Event.logError ("[" ++ browser_name ++ "] Tests failed: " ++ s)) ∧
    ((test_suite_all_tests_3x browser_name env local_port true).2)[6]? =
      some (Event.farmReport "failed" "") := by
  unfold test_suite_all_tests_3x
  rw [hn, hs]
  dsimp only
  have hgd : (JsonValue.jstr s).asStr.getD noStringReturned = s := rfl
  rw [hgd, if_neg hne]
  cases hrep : env.farmReportRes <;> exact ⟨rfl, rfl⟩

/-- C7 (witness): concrete failing farm session — the failure log entry
immediately precedes the report attempt. -/
theorem c7_log_before_report_witness :
    ((test_suite_all_tests_3x "Windows 11, Chrome" envSuiteFails local_port true).2)[5]? =
      some (Event.logError ("[" ++ "Windows 11, Chrome" ++ "] Tests failed: " ++
        "Error: assertion failed")) ∧
    ((test_suite_all_tests_3x "Windows 11, Chrome" envSuiteFails local_port true).2)[6]? =
      some (Event.farmReport "failed" "") :=
  c7_log_before_report "Windows 11, Chrome" envSuiteFails "Error: assertion failed"
    rfl rfl (by decide)

theorem capLookup_capInsert_self (m : CapMap) (k : String) (v : CapValue) :
    capLookup (capInsert m k v) k = some v := by
  induction m with
  | nil => simp [capInsert, capLookup]
  | cons p rest ih =>
    rcases p with ⟨k', v'⟩
    by_cases h : k' = k
    · simp [capInsert, capLookup, h]
    · simp [capInsert, capLookup, h, ih]

theorem capLookup_capInsert_other (m : CapMap) (k k2 : String) (v : CapValue)
    (h : k2 ≠ k) :
    capLookup (capInsert m k v) k2 = capLookup m k2 := by
  induction m with
  | nil => simp [capInsert, capLookup, Ne.symm h]
  | cons p rest ih =>
    rcases p with ⟨k', v'⟩
    by_cases hk : k' = k
    · subst hk
      simp [capInsert, capLookup, Ne.symm h]
    · by_cases hk2 : k' = k2 <;> simp [capInsert, capLookup, hk, hk2, ih, h]

theorem capLookup_capAddSubkey_other (m : CapMap) (key subkey : String) (v : CapValue)
    (k2 : String) (h : k2 ≠ key) :
    capLookup (capAddSubkey m key subkey v) k2 = capLookup m k2 := by
  unfold capAddSubkey
  rcases hl : capLookup m key with _ | vv
  · exact capLookup_capInsert_other m key k2 _ h
  · cases vv <;> exact capLookup_capInsert_other m key k2 _ h

/-- C8: for every farm configuration and every local run, the capability set
sent to the remote driver carries `acceptSslCerts` forced to `true`, and the
configuration's own top-level capabilities (other than the forced key and the
`bstack:options` object that receives the provider sub-options) are passed
through unchanged. -/
theorem c8_accept_ssl_certs (config : CapMap) (localIdentifier : String) :
    capLookup (build_farm_capabilities config localIdentifier) "acceptSslCerts" =
      some (CapValue.cbool true) ∧
    (∀ k, k ≠ "acceptSslCerts" → k ≠ "bstack:options" →
      capLookup (build_farm_capabilities config localIdentifier) k = capLookup config k) ∧
    capLookup build_local_capabilities "acceptSslCerts" = some (CapValue.cbool true) := by
  unfold build_farm_capabilities
  dsimp only
  refine ⟨?_, ?_, rfl⟩
  · rw [capLookup_capAddSubkey_other _ _ _ _ _ (by decide),
        capLookup_capAddSubkey_other _ _ _ _ _ (by decide),
        capLookup_capAddSubkey_other _ _ _ _ _ (by decide),
        capLookup_capAddSubkey_other _ _ _ _ _ (by decide),
        capLookup_capAddSubkey_other _ _ _ _ _ (by decide),
        capLookup_capAddSubkey_other _ _ _ _ _ (by decide)]
    exact capLookup_capInsert_self _ _ _
  · intro k hk1 hk2
    rw [capLookup_capAddSubkey_other _ _ _ _ _ hk2,
        capLookup_capAddSubkey_other _ _ _ _ _ hk2,
        capLookup_capAddSubkey_other _ _ _ _ _ hk2,
        capLookup_capAddSubkey_other _ _ _ _ _ hk2,
        capLookup_capAddSubkey_other _ _ _ _ _ hk2,
        capLookup_capAddSubkey_other _ _ _ _ _ hk2,
        capLookup_capInsert_other _ _ _ _ hk1]

/-- C8 (witness): a concrete one-key configuration keeps its own capability
and gains the forced `acceptSslCerts`. -/
theorem c8_accept_ssl_certs_witness :
    capLookup (build_farm_capabilities
        [("browserName", CapValue.cstr "Chrome")] "id0") "acceptSslCerts" =
      some (CapValue.cbool true) ∧
    capLookup (build_farm_capabilities
        [("browserName", CapValue.cstr "Chrome")] "id0") "browserName" =
      capLookup [("browserName", CapValue.cstr "Chrome")] "browserName" :=
  ⟨(c8_accept_ssl_certs [("browserName", CapValue.cstr "Chrome")] "id0").1,
   (c8_accept_ssl_certs [("browserName", CapValue.cstr "Chrome")] "id0").2.1
     "browserName" (by decide) (by decide)⟩

/-- C9 (counterexample): for a non-string resolution value the run fails with
the reason "Tests failed: --zaplib_ci: no string was returned--" — the
placeholder is embedded in the failure reason, not the reason itself. -/
theorem c9_placeholder_counterexample :
    session_outcome "local browser" envNonString local_port false ≠
      SessionOutcome.RunFailed noStringReturned ∧
    session_outcome "local browser" envNonString local_port false =
      SessionOutcome.RunFailed ("Tests failed: " ++ noStringReturned) := by decide

/-- C9 (amended): the classification is total on non-string resolution
values: the code substitutes the fixed placeholder string and the run is
classified as failed with the placeholder embedded in the failure reason
(local mode) and in the logged failure entry (farm mode) — it never crashes
on a non-string value. -/
theorem c9_placeholder_amended (browser_name : String) (env : SessionEnv) (v : JsonValue)
    (hn : env.navigateRes = Res.ok ()) (hv : env.script = Res.ok v)
    (hs : v.asStr = none) :
    (test_suite_all_tests_3x browser_name env local_port false).1 =
      Res.err ("Tests failed: " ++ noStringReturned) ∧
    (env.connect = Res.ok () →
      session_outcome browser_name env local_port false =
        SessionOutcome.RunFailed ("Tests failed: " ++ noStringReturned)) ∧
    Event.logError ("[" ++ browser_name ++ "] Tests failed: " ++ noStringReturned) ∈
      (test_suite_all_tests_3x browser_name env local_port true).2 := by
  have hgd : v.asStr.getD noStringReturned = noStringReturned := by rw [hs]; rfl
  have h1 : (test_suite_all_tests_3x browser_name env local_port false).1 =
      Res.err ("Tests failed: " ++ noStringReturned) := by
    unfold test_suite_all_tests_3x
    rw [hn, hv]
    dsimp only
    rw [hgd, if_neg (by decide : ¬(noStringReturned = "SUCCESS"))]
    rfl
  refine ⟨h1, fun hc => ?_, ?_⟩
  · unfold session_outcome
    rw [hc, h1]
  · unfold test_suite_all_tests_3x
    rw [hn, hv]
    dsimp only
    rw [hgd, if_neg (by decide : ¬(noStringReturned = "SUCCESS"))]
    cases hrep : env.farmReportRes <;> simp

/-- C9 (witness): concrete non-string resolution (JSON null). -/
theorem c9_placeholder_amended_witness :
    (test_suite_all_tests_3x "local browser" envNonString local_port false).1 =
      Res.err ("Tests failed: " ++ noStringReturned) :=
  (c9_placeholder_amended "local browser" envNonString JsonValue.jnull rfl rfl rfl).1

theorem sessionLevelOk_farmReport (st r : String)
    (h : (Event.farmReport st r).sessionLevelOk = true) :
    r = "" ∧ (st = "passed" ∨ st = "failed") := by
  simp [Event.sessionLevelOk] at h
  exact h

/-- C10: every farm status report in any run's trace carries an empty reason
string, and its status field is the literal "passed" or "failed" — the
failure detail returned by the in-page suite is never forwarded to the farm
service. -/
theorem c10_empty_reason (mode : Mode) (bindOk : Bool) (status reason : String) :
    Event.farmReport status reason ∈ (cmd mode bindOk).2 →
      reason = "" ∧ (status = "passed" ∨ status = "failed") := by
  intro hmem
  cases bindOk
  · have h2 : (cmd mode false).2 = server_events_bind_failed := rfl
    rw [h2] at hmem
    simp [server_events_bind_failed] at hmem
  · have hts := run_tests_events_ok mode local_port
    rcases hrt : run_tests mode local_port with ⟨p, testEvs⟩
    rw [hrt] at hts
    cases p with
    | some msg =>
      have hc : cmd mode true = (some msg, server_events ++ testEvs) := by
        unfold cmd; rw [hrt]; rfl
      rw [hc] at hmem
      rcases List.mem_append.mp hmem with h1 | h2
      · simp [server_events] at h1
      · exact sessionLevelOk_farmReport status reason (hts _ h2)
    | none =>
      have hc : cmd mode true =
          (none, server_events ++ testEvs ++ [Event.shutdownRequest, Event.shutdownConfirmed]) := by
        unfold cmd; rw [hrt]; rfl
      rw [hc] at hmem
      rcases List.mem_append.mp hmem with h1 | h2
      · rcases List.mem_append.mp h1 with h3 | h4
        · simp [server_events] at h3
        · exact sessionLevelOk_farmReport status reason (hts _ h4)
      · simp at h2

/-- C10 (witness): the passing farm session's report event, with its empty
reason, is in the trace. -/
theorem c10_empty_reason_witness :
    ("" : String) = "" ∧ (("passed" : String) = "passed" ∨ ("passed" : String) = "failed") :=
  c10_empty_reason (Mode.farm [sAllOk]) true "passed" "" (by decide)


end ZaplibCI
